import Mathlib

/-!
Verification of the game-logic engine of the ThreeCardsIEProject repository
(`src/src/App.jsx`, with a second variant in `src/unnamed/part_000`).

The JavaScript game logic is shallowly embedded as executable Lean functions:
  * `createDeck`, `shuffle`, `getRankValue`, `evaluateHand`, `compareHands`
    mirror the functions of the same names in `App.jsx` (lines 9-101);
  * `handleDeal` and `handleReshuffle` mirror the React state updates of the
    handlers of the same names, with all scheduled timeouts settled, in the
    order they fire, so a handler is a function on the full component state;
  * JavaScript built-ins are modelled explicitly: `Array.prototype.sort` with
    comparator `(a, b) => b - a` by `sortDesc`, `Array.prototype.find` by
    `List.find?` (an `Option` result standing for a possibly-`undefined`
    value), array destructuring swap by `listSwap`, `Object.entries` key
    ordering by `jsObjectKeys`, and `>` on possibly-`undefined` numbers by
    `jsGt` (comparisons against `undefined` are `false` in JavaScript);
  * `Math.floor(Math.random() * (i + 1))` is abstracted as a function
    `js : Nat → Nat` giving the chosen index for each loop index `i`
    (the actual source always satisfies `js i ≤ i`).
-/

/-- The `RANKS` constant from App.jsx line 5. -/
def RANKS : List String :=
  ["2", "3", "4", "5", "6", "7", "8", "9", "10", "J", "Q", "K", "A"]

/-- The `SUITS` constant from App.jsx line 6. -/
def SUITS : List String := ["H", "D", "C", "S"]

/-- A card object `{ rank, suit, value }` as pushed by `createDeck`. -/
structure Card where
  rank : String
  suit : String
  value : Nat
  deriving DecidableEq, Repr

/-- The `createDeck` function (App.jsx lines 9-17): suit-major, rank-minor enumeration,
`value = index + 2` for the rank at position `index` of `RANKS`. -/
def createDeck : List Card :=
  (SUITS.map (fun suit =>
    RANKS.enum.map (fun p => { rank := p.2, suit := suit, value := p.1 + 2 }))).flatten

/-- Model of the destructuring swap `[a[i], a[j]] = [a[j], a[i]]` on an
array: both reads happen before both writes.  Out-of-range indices never
occur in the source (`j ≤ i < length`); the model leaves the list unchanged
in that case. -/
def listSwap (l : List α) (i j : Nat) : List α :=
  match l.get? i, l.get? j with
  | some a, some b => (l.set i b).set j a
  | _, _ => l

/-- The loop of `shuffle` (App.jsx lines 20-23), running the index `i`
downward from the first argument to `1`, swapping position `i` with
position `js i`. -/
def shuffleFrom (js : Nat → Nat) : Nat → List α → List α
  | 0, l => l
  | i + 1, l => shuffleFrom js i (listSwap l (i + 1) (js (i + 1)))

/-- The `shuffle` function (App.jsx lines 19-24): Fisher-Yates from the last index down
to `1`; `js i` models `Math.floor(Math.random() * (i + 1))`. -/
def shuffle (js : Nat → Nat) (l : List α) : List α :=
  shuffleFrom js (l.length - 1) l

/-- The `getRankValue` function (App.jsx lines 26-29): `rankMap[rank] || 0`. -/
def getRankValue (rank : String) : Nat :=
  if rank = "2" then 2
  else if rank = "3" then 3
  else if rank = "4" then 4
  else if rank = "5" then 5
  else if rank = "6" then 6
  else if rank = "7" then 7
  else if rank = "8" then 8
  else if rank = "9" then 9
  else if rank = "10" then 10
  else if rank = "J" then 11
  else if rank = "Q" then 12
  else if rank = "K" then 13
  else if rank = "A" then 14
  else 0

/-- Insertion step for `sortDesc`. -/
def insertDesc (x : Nat) : List Nat → List Nat
  | [] => [x]
  | y :: ys => if y ≤ x then x :: y :: ys else y :: insertDesc x ys

/-- Model of `Array.prototype.sort` with comparator `(a, b) => b - a`:
the values in descending order. -/
def sortDesc (l : List Nat) : List Nat := l.foldr insertDesc []

/-- The keys of the `rankCounts` object in first-insertion order, as built
by the `reduce` at App.jsx lines 38-41. -/
def rankCountKeys (ranks : List String) : List String :=
  ranks.foldl (fun acc r => if acc.contains r then acc else acc ++ [r]) []

/-- Insertion step for `sortAscBy`. -/
def insertAscBy (f : String → Nat) (x : String) : List String → List String
  | [] => [x]
  | y :: ys => if f x ≤ f y then x :: y :: ys else y :: insertAscBy f x ys

/-- Ascending insertion sort by a numeric key. -/
def sortAscBy (f : String → Nat) (l : List String) : List String :=
  l.foldr (insertAscBy f) []

/-- Whether a string is made of decimal digits, hence (for the rank strings,
which carry no leading zeros) a JavaScript array-index-like object key. -/
def isIndexKey (s : String) : Bool :=
  !s.data.isEmpty && s.data.all (fun c => 48 ≤ c.toNat && c.toNat ≤ 57)

/-- The numeric value of a digit string. -/
def indexKeyVal (s : String) : Nat :=
  s.data.foldl (fun n c => n * 10 + (c.toNat - 48)) 0

/-- The `Object.entries` key ordering: array-index-like keys first, in ascending
numeric order, then the remaining keys in insertion order.  (Among the
thirteen rank strings, "2"-"10" are array-index-like and "J","Q","K","A"
are not.) -/
def jsObjectKeys (keys : List String) : List String :=
  sortAscBy indexKeyVal (keys.filter (fun k => isIndexKey k))
    ++ keys.filter (fun k => !isIndexKey k)

/-- The entries `Object.entries(rankCounts)` (App.jsx line 43): each key of the count
object, paired with the number of occurrences of that rank. -/
def rankEntries (ranks : List String) : List (String × Nat) :=
  (jsObjectKeys (rankCountKeys ranks)).map (fun r => (r, ranks.count r))

/-- The hand-result object returned by `evaluateHand`.  Absent fields are
`none`; a kicker entry is an `Option Nat` because `find` can in principle
return `undefined`. -/
structure HandResult where
  type : String
  rank : Nat
  primaryValue : Option Nat
  kicker : Option (List (Option Nat))
  deriving DecidableEq, Repr

/-- The `evaluateHand` function (App.jsx lines 31-72). -/
def evaluateHand (hand : List Card) : HandResult :=
  let sortedValues := sortDesc (hand.map (fun c => getRankValue c.rank))
  let ranks := hand.map (fun c => c.rank)
  let pairs := (rankEntries ranks).filter (fun e => 2 ≤ e.2)
  match pairs with
  | [] =>
    { type := "High Card", rank := 1, primaryValue := none,
      kicker := some (sortedValues.map some) }
  | (pairRank, cnt) :: _ =>
    let pairValue := getRankValue pairRank
    if cnt = 3 then
      { type := "Three of a Kind", rank := 3, primaryValue := some pairValue,
        kicker := none }
    else
      { type := "Pair", rank := 2, primaryValue := some pairValue,
        kicker := some [sortedValues.find? (fun v => v != pairValue)] }

/-- JavaScript `>` on possibly-`undefined` numbers: any comparison against
`undefined` is `false`. -/
def jsGt : Option Nat → Option Nat → Bool
  | some a, some b => b < a
  | _, _ => false

/-- The kicker loop of `compareHands` (App.jsx lines 91-96): iterate over
the indices of the first kicker list, reading the second by index (which
yields `undefined` past its end). -/
def cmpKickers : List (Option Nat) → List (Option Nat) → Nat
  | [], _ => 0
  | a :: as, bs =>
    if jsGt a (bs.headD none) then 1
    else if jsGt (bs.headD none) a then 2
    else cmpKickers as bs.tail

/-- Step 2b of `compareHands` (App.jsx lines 90-97): compare kickers when
both hands carry a kicker array, else fall through to the tie. -/
def cmpPhase3 (hand1 hand2 : HandResult) : Nat :=
  match hand1.kicker, hand2.kicker with
  | some k1, some k2 => cmpKickers k1 k2
  | _, _ => 0

/-- Step 2a of `compareHands` (App.jsx lines 84-87): compare primary values
when both are present, falling through on equality or absence. -/
def cmpPhase2 (hand1 hand2 : HandResult) : Nat :=
  match hand1.primaryValue, hand2.primaryValue with
  | some p1, some p2 =>
    if p2 < p1 then 1
    else if p1 < p2 then 2
    else cmpPhase3 hand1 hand2
  | _, _ => cmpPhase3 hand1 hand2

/-- The `compareHands` function (App.jsx lines 75-101): 1 if the first hand wins,
2 if the second wins, 0 for a tie. -/
def compareHands (hand1 hand2 : HandResult) : Nat :=
  if hand2.rank < hand1.rank then 1
  else if hand1.rank < hand2.rank then 2
  else if hand1.rank = hand2.rank then cmpPhase2 hand1 hand2
  else 0


/-- Since `evaluateHand` reads a card only through its `rank`, so a three-card
evaluation is a function of the three rank strings. -/
def evalR (r1 r2 r3 : String) : HandResult :=
  evaluateHand [⟨r1, "H", 0⟩, ⟨r2, "H", 0⟩, ⟨r3, "H", 0⟩]

/-- The three-of-a-kind result object with primary value `v`. -/
def tripsRes (v : Nat) : HandResult :=
  { type := "Three of a Kind", rank := 3, primaryValue := some v, kicker := none }

/-- The pair result object with primary value `p` and single kicker `k`. -/
def pairRes (p k : Nat) : HandResult :=
  { type := "Pair", rank := 2, primaryValue := some p, kicker := some [some k] }

/-- The high-card result object with kickers `vs`. -/
def highRes (vs : List Nat) : HandResult :=
  { type := "High Card", rank := 1, primaryValue := none, kicker := some (vs.map some) }

/-- The case analysis the spec gives of `evaluateHand` on the ranks of a three-card
hand, together with the trichotomy that makes it exhaustive. -/
abbrev C1core (r1 r2 r3 : String) : Prop :=
  (∀ r ∈ [r1, r2, r3], [r1, r2, r3].count r = 3 →
    evalR r1 r2 r3 = tripsRes (getRankValue r)) ∧
  (∀ r ∈ [r1, r2, r3], [r1, r2, r3].count r = 2 →
    ∀ u ∈ [r1, r2, r3], [r1, r2, r3].count u = 1 →
      evalR r1 r2 r3 = pairRes (getRankValue r) (getRankValue u)) ∧
  ((∀ r ∈ [r1, r2, r3], [r1, r2, r3].count r = 1) →
    evalR r1 r2 r3 = highRes (sortDesc ([r1, r2, r3].map getRankValue))) ∧
  ((∃ r ∈ [r1, r2, r3], [r1, r2, r3].count r = 3) ∨
    ((∃ r ∈ [r1, r2, r3], [r1, r2, r3].count r = 2) ∧
      (∃ u ∈ [r1, r2, r3], [r1, r2, r3].count u = 1)) ∨
    (∀ r ∈ [r1, r2, r3], [r1, r2, r3].count r = 1))

set_option maxHeartbeats 4000000 in
theorem evalR_char : ∀ r1 ∈ RANKS, ∀ r2 ∈ RANKS, ∀ r3 ∈ RANKS, C1core r1 r2 r3 := by
  decide

/-- A hand as the application produces it: exactly three cards, each with a
rank drawn from `RANKS`. -/
def ValidHand (hand : List Card) : Prop :=
  hand.length = 3 ∧ ∀ c ∈ hand, c.rank ∈ RANKS

theorem evaluateHand_eq_evalR (c1 c2 c3 : Card) :
    evaluateHand [c1, c2, c3] = evalR c1.rank c2.rank c3.rank := rfl

theorem evaluateHand_char (hand : List Card)
    (hlen : hand.length = 3) (hranks : ∀ c ∈ hand, c.rank ∈ RANKS) :
    (∀ r ∈ hand.map Card.rank, (hand.map Card.rank).count r = 3 →
      evaluateHand hand = tripsRes (getRankValue r)) ∧
    (∀ r ∈ hand.map Card.rank, (hand.map Card.rank).count r = 2 →
      ∀ u ∈ hand.map Card.rank, (hand.map Card.rank).count u = 1 →
        evaluateHand hand = pairRes (getRankValue r) (getRankValue u)) ∧
    ((∀ r ∈ hand.map Card.rank, (hand.map Card.rank).count r = 1) →
      evaluateHand hand =
        highRes (sortDesc ((hand.map Card.rank).map getRankValue))) ∧
    ((∃ r ∈ hand.map Card.rank, (hand.map Card.rank).count r = 3) ∨
      ((∃ r ∈ hand.map Card.rank, (hand.map Card.rank).count r = 2) ∧
        (∃ u ∈ hand.map Card.rank, (hand.map Card.rank).count u = 1)) ∨
      (∀ r ∈ hand.map Card.rank, (hand.map Card.rank).count r = 1)) := by
  obtain ⟨c1, c2, c3, rfl⟩ := List.length_eq_three.mp hlen
  have h1 : c1.rank ∈ RANKS := hranks c1 (by simp)
  have h2 : c2.rank ∈ RANKS := hranks c2 (by simp)
  have h3 : c3.rank ∈ RANKS := hranks c3 (by simp)
  exact evalR_char c1.rank h1 c2.rank h2 c3.rank h3

/-- C1: for every hand of exactly 3 valid cards, `evaluateHand` returns the
three-of-a-kind result when a rank occurs 3 times (rank 3, primary value
the value of that rank, no kickers); the pair result when a rank occurs
exactly twice (rank 2, primary value the value of the paired rank, the
remaining value as sole kicker); and the high-card result otherwise (rank
1, no primary value, the three values sorted descending as kickers) — and
these cases are exhaustive. -/
theorem evaluateHand_cases (hand : List Card)
    (hlen : hand.length = 3) (hranks : ∀ c ∈ hand, c.rank ∈ RANKS) :
    (∀ r ∈ hand.map Card.rank, (hand.map Card.rank).count r = 3 →
      evaluateHand hand = tripsRes (getRankValue r)) ∧
    (∀ r ∈ hand.map Card.rank, (hand.map Card.rank).count r = 2 →
      ∀ u ∈ hand.map Card.rank, (hand.map Card.rank).count u = 1 →
        evaluateHand hand = pairRes (getRankValue r) (getRankValue u)) ∧
    ((∀ r ∈ hand.map Card.rank, (hand.map Card.rank).count r = 1) →
      evaluateHand hand =
        highRes (sortDesc ((hand.map Card.rank).map getRankValue))) ∧
    ((∃ r ∈ hand.map Card.rank, (hand.map Card.rank).count r = 3) ∨
      ((∃ r ∈ hand.map Card.rank, (hand.map Card.rank).count r = 2) ∧
        (∃ u ∈ hand.map Card.rank, (hand.map Card.rank).count u = 1)) ∨
      (∀ r ∈ hand.map Card.rank, (hand.map Card.rank).count r = 1)) :=
  evaluateHand_char hand hlen hranks

theorem evaluateHand_cases_witness :
    evaluateHand [⟨"K", "H", 13⟩, ⟨"K", "D", 13⟩, ⟨"5", "C", 5⟩] =
      pairRes 13 5 := by
  exact (evaluateHand_cases [⟨"K", "H", 13⟩, ⟨"K", "D", 13⟩, ⟨"5", "C", 5⟩]
    (by decide) (by decide)).2.1 "K" (by decide) (by decide) "5" (by decide)
    (by decide)

/-- The kicker entry at index `i` (`undefined`, i.e. `none`, past the end). -/
def kickAt (k : List (Option Nat)) (i : Nat) : Option Nat := k.getD i none

/-- The first index at which the kicker lists differ, read in stored order,
carries a strictly greater value on the left. -/
def KickGreater (k1 k2 : List (Option Nat)) : Prop :=
  ∃ i, i < k1.length ∧ (∀ j, j < i → kickAt k1 j = kickAt k2 j) ∧
    ∃ x y, kickAt k1 i = some x ∧ kickAt k2 i = some y ∧ y < x

/-- The decisive-win criteria of the spec for the first hand: a strictly higher
rank; or equal ranks and both primary values present with the first
strictly greater; or equal ranks, equal primary values, and kickers
strictly greater at the first differing index. -/
def FirstWins (a b : HandResult) : Prop :=
  b.rank < a.rank ∨
  (a.rank = b.rank ∧
    ∃ p q, a.primaryValue = some p ∧ b.primaryValue = some q ∧ q < p) ∨
  (a.rank = b.rank ∧ a.primaryValue = b.primaryValue ∧
    ∃ k1 k2, a.kicker = some k1 ∧ b.kicker = some k2 ∧ KickGreater k1 k2)

/-- The three shapes of results `evaluateHand` produces on valid hands. -/
def ShapeOK (res : HandResult) : Prop :=
  (res.rank = 3 ∧ (∃ p, res.primaryValue = some p) ∧ res.kicker = none) ∨
  (res.rank = 2 ∧ (∃ p, res.primaryValue = some p) ∧
    (∃ k, res.kicker = some [some k])) ∨
  (res.rank = 1 ∧ res.primaryValue = none ∧
    (∃ x y z, res.kicker = some [some x, some y, some z]))

theorem kickGreater_one (x y : Nat) : KickGreater [some x] [some y] ↔ y < x := by
  constructor
  · rintro ⟨i, hi, -, a, b, ha, hb, hab⟩
    have hz : i = 0 := by simpa using hi
    subst hz
    simp [kickAt] at ha hb
    omega
  · intro h
    exact ⟨0, by simp, fun j hj => absurd hj (by omega), x, y, rfl, rfl, h⟩

theorem kickGreater_three (a1 a2 a3 b1 b2 b3 : Nat) :
    KickGreater [some a1, some a2, some a3] [some b1, some b2, some b3] ↔
      (b1 < a1 ∨ (a1 = b1 ∧ b2 < a2) ∨ (a1 = b1 ∧ a2 = b2 ∧ b3 < a3)) := by
  constructor
  · rintro ⟨i, hi, hpre, x, y, hx, hy, hxy⟩
    simp only [List.length_cons, List.length_nil] at hi
    interval_cases i
    · simp [kickAt] at hx hy
      omega
    · have h0 := hpre 0 (by omega)
      simp [kickAt] at h0 hx hy
      omega
    · have h0 := hpre 0 (by omega)
      have h1 := hpre 1 (by omega)
      simp [kickAt] at h0 h1 hx hy
      omega
  · rintro (h | ⟨h1, h2⟩ | ⟨h1, h2, h3⟩)
    · exact ⟨0, by simp, fun j hj => absurd hj (by omega), a1, b1, rfl, rfl, h⟩
    · refine ⟨1, by simp, fun j hj => ?_, a2, b2, rfl, rfl, h2⟩
      interval_cases j
      simp [kickAt, h1]
    · refine ⟨2, by simp, fun j hj => ?_, a3, b3, rfl, rfl, h3⟩
      interval_cases j
      · simp [kickAt, h1]
      · simp [kickAt, h2]

theorem compare_spec_aux (a b : HandResult) (ha : ShapeOK a) (hb : ShapeOK b) :
    (compareHands a b = 1 ↔ FirstWins a b) ∧
    (compareHands a b = 2 ↔ FirstWins b a) ∧
    (compareHands a b = 0 ↔ ¬FirstWins a b ∧ ¬FirstWins b a) := by
  obtain ⟨ta, ra, pa, ka⟩ := a
  obtain ⟨tb, rb, pb, kb⟩ := b
  rcases ha with ⟨hra, ⟨p1, hpa⟩, hka⟩ | ⟨hra, ⟨p1, hpa⟩, k1, hka⟩ |
      ⟨hra, hpa, x1, y1, z1, hka⟩ <;>
    rcases hb with ⟨hrb, ⟨p2, hpb⟩, hkb⟩ | ⟨hrb, ⟨p2, hpb⟩, k2, hkb⟩ |
        ⟨hrb, hpb, x2, y2, z2, hkb⟩ <;>
      simp only at hra hrb hpa hpb hka hkb <;>
      subst hra hrb hpa hpb hka hkb <;>
      simp [compareHands, cmpPhase2, cmpPhase3, cmpKickers, jsGt, FirstWins,
        kickGreater_one, kickGreater_three]
  all_goals try split_ifs
  all_goals (try simp_all) <;> omega

theorem insertDesc_length (x : Nat) (l : List Nat) :
    (insertDesc x l).length = l.length + 1 := by
  induction l with
  | nil => rfl
  | cons y ys ih =>
    simp only [insertDesc]
    split <;> simp [ih]

theorem sortDesc_length (l : List Nat) : (sortDesc l).length = l.length := by
  induction l with
  | nil => rfl
  | cons x xs ih =>
    show (insertDesc x (sortDesc xs)).length = xs.length + 1
    rw [insertDesc_length, ih]

theorem shape_of_valid (hand : List Card) (h : ValidHand hand) :
    ShapeOK (evaluateHand hand) := by
  obtain ⟨hlen, hranks⟩ := h
  have hc := evaluateHand_char hand hlen hranks
  rcases hc.2.2.2 with ⟨r, hr, hcnt⟩ | ⟨⟨r, hr, hcnt⟩, ⟨u, hu, hucnt⟩⟩ | hall
  · rw [hc.1 r hr hcnt]
    exact Or.inl ⟨rfl, ⟨_, rfl⟩, rfl⟩
  · rw [hc.2.1 r hr hcnt u hu hucnt]
    exact Or.inr (Or.inl ⟨rfl, ⟨_, rfl⟩, _, rfl⟩)
  · rw [hc.2.2.1 hall]
    obtain ⟨x, y, z, hxyz⟩ := List.length_eq_three.mp
      (show (sortDesc ((hand.map Card.rank).map getRankValue)).length = 3 by
        rw [sortDesc_length]
        simp [hlen])
    rw [hxyz]
    exact Or.inr (Or.inr ⟨rfl, rfl, x, y, z, rfl⟩)

/-- C2: for hand results `a`, `b` produced by `evaluateHand` on valid
three-card hands, `compareHands a b` returns `1` iff the first hand wins by
the criteria of the spec (higher rank; or equal rank and strictly greater
primary value when both exist; or equal rank and primary value and kickers
greater at the first differing index), returns `2` iff the criteria hold
symmetrically for the second hand, and returns `0` (tie) iff neither set of
criteria is decisive. -/
theorem compareHands_spec (h1 h2 : List Card)
    (v1 : ValidHand h1) (v2 : ValidHand h2) :
    (compareHands (evaluateHand h1) (evaluateHand h2) = 1 ↔
      FirstWins (evaluateHand h1) (evaluateHand h2)) ∧
    (compareHands (evaluateHand h1) (evaluateHand h2) = 2 ↔
      FirstWins (evaluateHand h2) (evaluateHand h1)) ∧
    (compareHands (evaluateHand h1) (evaluateHand h2) = 0 ↔
      ¬FirstWins (evaluateHand h1) (evaluateHand h2) ∧
      ¬FirstWins (evaluateHand h2) (evaluateHand h1)) :=
  compare_spec_aux _ _ (shape_of_valid h1 v1) (shape_of_valid h2 v2)

theorem compareHands_spec_witness :
    FirstWins
      (evaluateHand [⟨"K", "H", 13⟩, ⟨"K", "D", 13⟩, ⟨"9", "C", 9⟩])
      (evaluateHand [⟨"K", "S", 13⟩, ⟨"K", "C", 13⟩, ⟨"5", "H", 5⟩]) :=
  (compareHands_spec [⟨"K", "H", 13⟩, ⟨"K", "D", 13⟩, ⟨"9", "C", 9⟩]
    [⟨"K", "S", 13⟩, ⟨"K", "C", 13⟩, ⟨"5", "H", 5⟩]
    ⟨by decide, by decide⟩ ⟨by decide, by decide⟩).1.mp (by decide)

/-- The React component state of `App` (App.jsx lines 216-237) relevant to
the game engine: both scores, both hands, the game state string, the two
message strings, the winner indicator, the deck, the shuffle counter, the
reveal flag and the modal flag. -/
structure AppState where
  player1Score : Nat
  player2Score : Nat
  player1Hand : List Card
  player2Hand : List Card
  gameState : String
  resultMessage : String
  winnerMessage : String
  winningPlayer : Option Nat
  currentDeck : List Card
  shuffleCount : Nat
  isHandsRevealed : Bool
  showReshuffleModal : Bool
  deriving DecidableEq, Repr

/-- The `cardsNeeded` constant (App.jsx line 239). -/
def cardsNeeded : Nat := 6

/-- The final-game message computed from two cumulative scores, as built in
both exhaustion branches of `handleDeal` (App.jsx lines 293-300 and
363-370). -/
def finalGameMessage (p1 p2 : Nat) : String :=
  if p2 < p1 then s!"Player 1 Wins the Game! Final Score: {p1} - {p2}"
  else if p1 < p2 then s!"Player 2 Wins the Game! Final Score: {p2} - {p1}"
  else s!"It\x27s a Tie Game! Final Score: {p1} - {p2}"

/-- The round-result banner message set at App.jsx lines 346-355. -/
def roundMessage (winnerId : Nat) (t1 t2 : String) : String :=
  if winnerId = 1 then s!"Player 1 Wins! ({t1} beats {t2})"
  else if winnerId = 2 then s!"Player 2 Wins! ({t2} beats {t1})"
  else "It\x27s a Tie! No score change."

/-- The `handleDeal` handler (App.jsx lines 288-381), with every scheduled timeout
settled in firing order, so the result is the state once the deal sequence
has completed.  If the deck holds fewer than `cardsNeeded` cards the deal
is refused: the state machine moves to showdown, the final-game message is
computed from the current cumulative scores, and the reshuffle modal is
raised (lines 289-305).  Otherwise the first six cards are sliced into the
two hands, the remainder becomes the deck, the hands are evaluated and
compared, the score of the winner is incremented, and — when the remaining deck
cannot supply another round — the modal is raised with the post-award
scores (lines 306-380). -/
def handleDeal (st : AppState) : AppState :=
  if st.currentDeck.length < cardsNeeded then
    { st with
      gameState := "showdown"
      resultMessage := finalGameMessage st.player1Score st.player2Score
      showReshuffleModal := true }
  else
    let deckToUse := st.currentDeck
    let p1Hand := deckToUse.take 3
    let p2Hand := (deckToUse.drop 3).take 3
    let remainingDeck := deckToUse.drop 6
    let result1 := evaluateHand p1Hand
    let result2 := evaluateHand p2Hand
    let winnerId := compareHands result1 result2
    let p1Final := st.player1Score + (if winnerId = 1 then 1 else 0)
    let p2Final := st.player2Score + (if winnerId = 2 then 1 else 0)
    { st with
      player1Score := p1Final
      player2Score := p2Final
      player1Hand := p1Hand
      player2Hand := p2Hand
      gameState := "showdown"
      resultMessage :=
        if remainingDeck.length < cardsNeeded then
          finalGameMessage p1Final p2Final
        else ""
      winnerMessage := roundMessage winnerId result1.type result2.type
      winningPlayer := some winnerId
      currentDeck := remainingDeck
      isHandsRevealed := true
      showReshuffleModal :=
        if remainingDeck.length < cardsNeeded then true
        else st.showReshuffleModal }

/-- The `handleReshuffle` handler (App.jsx lines 246-272), with the 500ms timeout
settled: scores and hands cleared, winner indicator cleared, modal
dismissed, a fresh shuffled deck installed, the shuffle counter bumped, and
the state machine back at pre-deal. -/
def handleReshuffle (js : Nat → Nat) (st : AppState) : AppState :=
  { st with
    player1Score := 0
    player2Score := 0
    player1Hand := []
    player2Hand := []
    gameState := "pre-deal"
    resultMessage := ""
    winnerMessage := "Shuffle complete. Ready to draw."
    winningPlayer := none
    currentDeck := shuffle js createDeck
    shuffleCount := st.shuffleCount + 1
    isHandsRevealed := false
    showReshuffleModal := false }

/-- The `disabled` predicate of the deal button (App.jsx line 433): the
presentation layer blocks dealing unless the state is showdown or pre-deal
and the deck can supply a round. -/
def dealButtonDisabled (st : AppState) : Bool :=
  (!(st.gameState == "showdown") && !(st.gameState == "pre-deal"))
    || st.currentDeck.length < cardsNeeded

/-- The drawing step as the code actually performs it (App.jsx lines
322-324): `slice` into the first `n` cards and the rest.  JavaScript
`slice` never fails; past the end it silently returns what is available. -/
def draw (deck : List Card) (n : Nat) : List Card × List Card :=
  (deck.take n, deck.drop n)

theorem cons_set_perm (xs : List α) :
    ∀ (k : Nat) (b x : α), xs.get? k = some b →
      (b :: xs.set k x).Perm (x :: xs) := by
  induction xs with
  | nil => intro k b x h; simp at h
  | cons y t ih =>
    intro k b x h
    cases k with
    | zero =>
      simp only [List.get?_cons_zero, Option.some.injEq] at h
      subst h
      simp only [List.set_cons_zero]
      exact List.Perm.swap x y t
    | succ k =>
      simp only [List.get?_cons_succ] at h
      simp only [List.set_cons_succ]
      exact (List.Perm.swap y b (t.set k x)).trans
        (((ih k b x h).cons y).trans (List.Perm.swap x y t))

theorem listSwap_perm (l : List α) (i j : Nat) : (listSwap l i j).Perm l := by
  induction l generalizing i j with
  | nil => exact List.Perm.refl _
  | cons y t ih =>
    cases i with
    | zero =>
      cases j with
      | zero => exact List.Perm.refl _
      | succ m =>
        cases hj : t.get? m with
        | none =>
          unfold listSwap
          simp only [List.get?_cons_zero, List.get?_cons_succ, hj]
          exact List.Perm.refl _
        | some b =>
          unfold listSwap
          simp only [List.get?_cons_zero, List.get?_cons_succ, hj,
            List.set_cons_zero, List.set_cons_succ]
          exact cons_set_perm t m b y hj
    | succ k =>
      cases j with
      | zero =>
        cases hi : t.get? k with
        | none =>
          unfold listSwap
          simp only [List.get?_cons_succ, List.get?_cons_zero, hi]
          exact List.Perm.refl _
        | some a =>
          unfold listSwap
          simp only [List.get?_cons_succ, List.get?_cons_zero, hi,
            List.set_cons_zero, List.set_cons_succ]
          exact cons_set_perm t k a y hi
      | succ m =>
        cases hi : t.get? k with
        | none =>
          unfold listSwap
          simp only [List.get?_cons_succ, hi]
          exact List.Perm.refl _
        | some a =>
          cases hj : t.get? m with
          | none =>
            unfold listSwap
            simp only [List.get?_cons_succ, hi, hj]
            exact List.Perm.refl _
          | some b =>
            have h := ih k m
            unfold listSwap at h ⊢
            simp only [hi, hj] at h
            simp only [List.get?_cons_succ, hi, hj, List.set_cons_succ]
            exact h.cons y

theorem shuffleFrom_perm (js : Nat → Nat) (i : Nat) (l : List α) :
    (shuffleFrom js i l).Perm l := by
  induction i generalizing l with
  | zero => exact List.Perm.refl _
  | succ i ih => exact (ih _).trans (listSwap_perm l (i + 1) (js (i + 1)))

theorem shuffle_perm (js : Nat → Nat) (l : List α) : (shuffle js l).Perm l :=
  shuffleFrom_perm js (l.length - 1) l

/-- C9: for every input list and every sequence of indices produced by the
random source, `shuffle` returns a permutation of its input — in
particular, applied to a full deck it keeps the same 52 cards, merely
reordered. -/
theorem shuffle_preserves_multiset :
    (∀ (js : Nat → Nat) (l : List Card), (shuffle js l).Perm l) ∧
    (∀ js : Nat → Nat, (shuffle js createDeck).Perm createDeck ∧
      (shuffle js createDeck).length = 52) := by
  refine ⟨fun js l => shuffle_perm js l, fun js => ⟨shuffle_perm js _, ?_⟩⟩
  rw [(shuffle_perm js createDeck).length_eq]
  decide

/-- C5: after a reshuffle settles, the deck is a fresh 52-card deck, the
shuffle count has grown by exactly one, both scores are zero, both hands
are empty, the winner indicator and the exhaustion modal are cleared, and
the state machine is back at pre-deal. -/
theorem reshuffle_resets (js : Nat → Nat) (st : AppState) :
    (handleReshuffle js st).currentDeck.length = 52 ∧
    (handleReshuffle js st).currentDeck = shuffle js createDeck ∧
    (handleReshuffle js st).shuffleCount = st.shuffleCount + 1 ∧
    (handleReshuffle js st).player1Score = 0 ∧
    (handleReshuffle js st).player2Score = 0 ∧
    (handleReshuffle js st).player1Hand = [] ∧
    (handleReshuffle js st).player2Hand = [] ∧
    (handleReshuffle js st).winningPlayer = none ∧
    (handleReshuffle js st).showReshuffleModal = false ∧
    (handleReshuffle js st).gameState = "pre-deal" := by
  have hlen : (shuffle js createDeck).length = 52 := by
    rw [(shuffle_perm js createDeck).length_eq]
    decide
  refine ⟨?_, ?_, ?_, ?_, ?_, ?_, ?_, ?_, ?_, ?_⟩ <;>
    simp [handleReshuffle, hlen]

theorem handleDeal_refused (st : AppState)
    (h : st.currentDeck.length < cardsNeeded) :
    handleDeal st = { st with
      gameState := "showdown"
      resultMessage := finalGameMessage st.player1Score st.player2Score
      showReshuffleModal := true } := by
  rw [handleDeal, if_pos h]

theorem handleDeal_success (st : AppState)
    (h : ¬ st.currentDeck.length < cardsNeeded) :
    handleDeal st = { st with
      player1Score := st.player1Score +
        (if compareHands (evaluateHand (st.currentDeck.take 3))
            (evaluateHand ((st.currentDeck.drop 3).take 3)) = 1 then 1 else 0)
      player2Score := st.player2Score +
        (if compareHands (evaluateHand (st.currentDeck.take 3))
            (evaluateHand ((st.currentDeck.drop 3).take 3)) = 2 then 1 else 0)
      player1Hand := st.currentDeck.take 3
      player2Hand := (st.currentDeck.drop 3).take 3
      gameState := "showdown"
      resultMessage :=
        if (st.currentDeck.drop 6).length < cardsNeeded then
          finalGameMessage
            (st.player1Score +
              (if compareHands (evaluateHand (st.currentDeck.take 3))
                  (evaluateHand ((st.currentDeck.drop 3).take 3)) = 1
                then 1 else 0))
            (st.player2Score +
              (if compareHands (evaluateHand (st.currentDeck.take 3))
                  (evaluateHand ((st.currentDeck.drop 3).take 3)) = 2
                then 1 else 0))
        else ""
      winnerMessage := roundMessage
        (compareHands (evaluateHand (st.currentDeck.take 3))
          (evaluateHand ((st.currentDeck.drop 3).take 3)))
        (evaluateHand (st.currentDeck.take 3)).type
        (evaluateHand ((st.currentDeck.drop 3).take 3)).type
      winningPlayer := some (compareHands (evaluateHand (st.currentDeck.take 3))
        (evaluateHand ((st.currentDeck.drop 3).take 3)))
      currentDeck := st.currentDeck.drop 6
      isHandsRevealed := true
      showReshuffleModal :=
        if (st.currentDeck.drop 6).length < cardsNeeded then true
        else st.showReshuffleModal } := by
  rw [handleDeal, if_neg h]

/-- C3: when the deck cannot supply six cards — on a deal command with deck
size below six, or right after a deal whose remaining deck is below six —
no further deal occurs: the exhaustion modal is raised carrying the
final-game message computed from the cumulative scores (including any point
just awarded), a refused deal leaves hands, deck and scores untouched, and
the message declares the player with the higher score the winner, or a game
tie on equal scores. -/
theorem deal_exhaustion_signal :
    (∀ st : AppState, st.currentDeck.length < 6 →
      handleDeal st = { st with
        gameState := "showdown"
        resultMessage := finalGameMessage st.player1Score st.player2Score
        showReshuffleModal := true }) ∧
    (∀ st : AppState, 6 ≤ st.currentDeck.length → st.currentDeck.length < 12 →
      (handleDeal st).showReshuffleModal = true ∧
      (handleDeal st).resultMessage =
        finalGameMessage (handleDeal st).player1Score
          (handleDeal st).player2Score) ∧
    (∀ p1 p2 : Nat,
      (p2 < p1 → finalGameMessage p1 p2 =
        s!"Player 1 Wins the Game! Final Score: {p1} - {p2}") ∧
      (p1 < p2 → finalGameMessage p1 p2 =
        s!"Player 2 Wins the Game! Final Score: {p2} - {p1}") ∧
      (p1 = p2 → finalGameMessage p1 p2 =
        s!"It\x27s a Tie Game! Final Score: {p1} - {p2}")) := by
  refine ⟨?_, ?_, ?_⟩
  · intro st h
    exact handleDeal_refused st (by simpa [cardsNeeded] using h)
  · intro st h6 h12
    have h' : ¬ st.currentDeck.length < cardsNeeded := by
      simp only [cardsNeeded]
      omega
    rw [handleDeal_success st h']
    have hrem : st.currentDeck.length - 6 < cardsNeeded := by
      simp only [cardsNeeded]
      omega
    constructor
    · simp [hrem]
    · simp [hrem]
  · intro p1 p2
    refine ⟨fun h => ?_, fun h => ?_, fun h => ?_⟩
    · simp [finalGameMessage, h]
    · simp [finalGameMessage, h, Nat.lt_asymm h]
    · subst h
      simp [finalGameMessage]

theorem deal_exhaustion_signal_witness :
    (handleDeal ⟨1, 2, [], [], "showdown", "", "", none, [], 1, false, false⟩ =
      ⟨1, 2, [], [], "showdown", finalGameMessage 1 2, "", none, [], 1, false,
        true⟩) ∧
    (handleDeal ⟨0, 0, [], [], "pre-deal", "", "", none,
        [⟨"2", "H", 2⟩, ⟨"3", "H", 3⟩, ⟨"4", "H", 4⟩, ⟨"5", "H", 5⟩,
          ⟨"6", "H", 6⟩, ⟨"7", "H", 7⟩], 1, false,
        false⟩).showReshuffleModal = true :=
  ⟨deal_exhaustion_signal.1 _ (by decide),
    (deal_exhaustion_signal.2.1 _ (by decide) (by decide)).1⟩

theorem iterate_deal_deck (N : Nat) :
    ∀ st : AppState, 6 * N ≤ st.currentDeck.length →
      (handleDeal^[N] st).currentDeck.length = st.currentDeck.length - 6 * N := by
  induction N with
  | zero => intro st _; simp
  | succ N ih =>
    intro st h
    rw [Function.iterate_succ_apply]
    have h6 : ¬ st.currentDeck.length < cardsNeeded := by
      simp only [cardsNeeded]
      omega
    have hdeck : (handleDeal st).currentDeck = st.currentDeck.drop 6 := by
      rw [handleDeal_success st h6]
    have hlen : (handleDeal st).currentDeck.length =
        st.currentDeck.length - 6 := by
      rw [hdeck, List.length_drop]
    rw [ih (handleDeal st) (by rw [hlen]; omega), hlen]
    omega

/-- C4: a successful deal (deck size at least 6) gives player 1 the first
three cards, player 2 the next three, and keeps the tail from index 6 as
the deck, shrinking it by exactly six; from a fresh 52-card deck, N
successful deals leave 52 − 6N cards, and after 8 deals (4 cards left) a
ninth deal is refused, leaving hands and deck unchanged and raising the
exhaustion modal. -/
theorem deal_consumes_six :
    (∀ st : AppState, 6 ≤ st.currentDeck.length →
      (handleDeal st).player1Hand = st.currentDeck.take 3 ∧
      (handleDeal st).player2Hand = (st.currentDeck.drop 3).take 3 ∧
      (handleDeal st).currentDeck = st.currentDeck.drop 6 ∧
      (handleDeal st).currentDeck.length = st.currentDeck.length - 6) ∧
    (∀ st : AppState, st.currentDeck.length = 52 → ∀ N, N ≤ 8 →
      (handleDeal^[N] st).currentDeck.length = 52 - 6 * N) ∧
    (∀ st : AppState, st.currentDeck.length = 52 →
      (handleDeal^[8] st).currentDeck.length = 4 ∧
      (handleDeal^[9] st).currentDeck = (handleDeal^[8] st).currentDeck ∧
      (handleDeal^[9] st).player1Hand = (handleDeal^[8] st).player1Hand ∧
      (handleDeal^[9] st).player2Hand = (handleDeal^[8] st).player2Hand ∧
      (handleDeal^[9] st).showReshuffleModal = true) := by
  refine ⟨?_, ?_, ?_⟩
  · intro st h
    have h' : ¬ st.currentDeck.length < cardsNeeded := by
      simp only [cardsNeeded]
      omega
    rw [handleDeal_success st h']
    refine ⟨by simp, by simp, by simp, by simp⟩
  · intro st h52 N hN
    rw [iterate_deal_deck N st (by omega), h52]
  · intro st h52
    have h8 : (handleDeal^[8] st).currentDeck.length = 4 := by
      rw [iterate_deal_deck 8 st (by omega), h52]
    have href := handleDeal_refused (handleDeal^[8] st) (by rw [h8]; decide)
    have h9 : handleDeal^[9] st = handleDeal (handleDeal^[8] st) :=
      Function.iterate_succ_apply' handleDeal 8 st
    refine ⟨h8, ?_, ?_, ?_, ?_⟩ <;> rw [h9, href] <;> simp

theorem deal_consumes_six_witness :
    ((handleDeal^[8]
        (⟨0, 0, [], [], "pre-deal", "", "", none, createDeck, 1, false,
          false⟩ : AppState)).currentDeck.length = 52 - 6 * 8) ∧
    (handleDeal
        (⟨0, 0, [], [], "pre-deal", "", "", none, createDeck, 1, false,
          false⟩ : AppState)).currentDeck = createDeck.drop 6 :=
  ⟨deal_consumes_six.2.1 _ (by decide) 8 (by decide),
    (deal_consumes_six.1 _ (by decide)).2.2.1⟩

/-- C6 counterexample: a deal command arriving while the state is
`reshuffling` is not a no-op — the deal handler of the engine checks only the
deck size, so it moves the game state to `showdown` and raises the modal;
likewise a deal during `hands-out` with enough cards deals again, changing
the deck. -/
theorem deal_not_noop_cex :
    ((⟨0, 0, [], [], "reshuffling", "", "", none, [], 1, false,
        false⟩ : AppState).gameState = "reshuffling" ∧
      (handleDeal ⟨0, 0, [], [], "reshuffling", "", "", none, [], 1, false,
        false⟩).gameState = "showdown" ∧
      (handleDeal ⟨0, 0, [], [], "reshuffling", "", "", none, [], 1, false,
        false⟩).showReshuffleModal = true) ∧
    ((⟨0, 0, [], [], "hands-out", "", "", none,
        [⟨"2", "H", 2⟩, ⟨"3", "H", 3⟩, ⟨"4", "H", 4⟩, ⟨"5", "H", 5⟩,
          ⟨"6", "H", 6⟩, ⟨"7", "H", 7⟩], 1, false,
        false⟩ : AppState).gameState = "hands-out" ∧
      (handleDeal ⟨0, 0, [], [], "hands-out", "", "", none,
        [⟨"2", "H", 2⟩, ⟨"3", "H", 3⟩, ⟨"4", "H", 4⟩, ⟨"5", "H", 5⟩,
          ⟨"6", "H", 6⟩, ⟨"7", "H", 7⟩], 1, false,
        false⟩).currentDeck = []) := by
  refine ⟨⟨rfl, ?_, ?_⟩, rfl, ?_⟩ <;> decide

/-- C6 (amended): deal commands during `hands-out` (dealing) or
`reshuffling` are blocked only by the presentation layer — the deal
button `disabled` predicate is true in those states — while the
engine deal handler itself never reads the game state: invoked directly it behaves
exactly as it would in any other state with the same deck and scores. -/
theorem deal_gating_amended :
    (∀ st : AppState,
      st.gameState = "hands-out" ∨ st.gameState = "reshuffling" →
      dealButtonDisabled st = true) ∧
    (∀ (st : AppState) (g : String),
      handleDeal { st with gameState := g } = handleDeal st) := by
  constructor
  · rintro st (h | h) <;> simp [dealButtonDisabled, h]
  · intro st g
    obtain ⟨p1, p2, h1, h2, gs, rm, wm, wp, cd, sc, ir, srm⟩ := st
    rfl

theorem deal_gating_amended_witness :
    dealButtonDisabled ⟨0, 0, [], [], "reshuffling", "", "", none,
      createDeck, 1, false, false⟩ = true :=
  deal_gating_amended.1 _ (Or.inr rfl)

/-- C7 counterexample: the drawing step of the code — `slice` on the deck array
— silently truncates instead of failing: asked for 3 cards from a 2-card
deck it just returns both cards and an empty remainder. -/
theorem draw_truncates_cex :
    (draw [⟨"2", "H", 2⟩, ⟨"3", "H", 3⟩] 3).1 =
        [⟨"2", "H", 2⟩, ⟨"3", "H", 3⟩] ∧
    (draw [⟨"2", "H", 2⟩, ⟨"3", "H", 3⟩] 3).1.length = 2 ∧
    (draw [⟨"2", "H", 2⟩, ⟨"3", "H", 3⟩] 3).2 = [] := by
  refine ⟨rfl, rfl, rfl⟩

/-- C7 (amended): the code has no failing draw operation — dealing slices
the deck, and `slice` silently truncates whenever more cards are requested
than remain; the engine instead guarantees by its deck-size gate that the
slices taken during a deal are always full three-card hands. -/
theorem draw_amended :
    (∀ (deck : List Card) (n : Nat),
      draw deck n = (deck.take n, deck.drop n) ∧
      (deck.length < n →
        (draw deck n).1 = deck ∧ (draw deck n).1.length = deck.length ∧
        (draw deck n).2 = [])) ∧
    (∀ st : AppState, 6 ≤ st.currentDeck.length →
      (handleDeal st).player1Hand.length = 3 ∧
      (handleDeal st).player2Hand.length = 3) := by
  constructor
  · intro deck n
    refine ⟨rfl, fun h => ⟨?_, ?_, ?_⟩⟩
    · exact List.take_of_length_le (by omega)
    · simp [draw]
      omega
    · exact List.drop_eq_nil_of_le (by omega)
  · intro st h
    have h' : ¬ st.currentDeck.length < cardsNeeded := by
      simp only [cardsNeeded]
      omega
    rw [handleDeal_success st h']
    constructor <;> simp <;> omega

theorem draw_amended_witness :
    (draw [⟨"2", "H", 2⟩] 3).1 = [⟨"2", "H", 2⟩] ∧
    (handleDeal ⟨0, 0, [], [], "pre-deal", "", "", none,
      [⟨"2", "H", 2⟩, ⟨"3", "H", 3⟩, ⟨"4", "H", 4⟩, ⟨"5", "H", 5⟩,
        ⟨"6", "H", 6⟩, ⟨"7", "H", 7⟩], 1, false,
      false⟩).player1Hand.length = 3 :=
  ⟨((draw_amended.1 [⟨"2", "H", 2⟩] 3).2 (by decide)).1,
    (draw_amended.2 _ (by decide)).1⟩

/-- C8: a freshly built deck has exactly 52 cards, all (rank, suit) pairs
distinct, enumerated suit-major and rank-minor, and each card field `value`
is the integer 2-14 determined by — and strictly increasing with — its
position of its rank in the order 2..A. -/
theorem createDeck_spec :
    createDeck.length = 52 ∧
    (createDeck.map (fun c => (c.rank, c.suit))).Nodup ∧
    (∀ i, i < 52 → createDeck.get? i =
      some ⟨RANKS.getD (i % 13) "", SUITS.getD (i / 13) "", i % 13 + 2⟩) ∧
    (∀ c ∈ createDeck,
      c.value = getRankValue c.rank ∧ 2 ≤ c.value ∧ c.value ≤ 14) ∧
    (∀ i, i < 13 → getRankValue (RANKS.getD i "") = i + 2) := by
  refine ⟨by decide, by decide, by decide, by decide, by decide⟩

theorem createDeck_spec_witness :
    createDeck.get? 51 = some ⟨"A", "S", 14⟩ :=
  createDeck_spec.2.2.1 51 (by decide)

namespace Part000

/-!
The second source variant, `src/unnamed/part_000`, defines its own copies
of the game-logic functions (lines 4-84).  They are transcribed here under
the `Part000` namespace, against the same `Card`/`HandResult` data model
and the same models of the JavaScript built-ins, so that claim C10 can
compare the two variants.
-/

/-- The `RANKS` constant from part_000 line 4. -/
def RANKS : List String :=
  ["2", "3", "4", "5", "6", "7", "8", "9", "10", "J", "Q", "K", "A"]

/-- The `SUITS` constant from part_000 line 5. -/
def SUITS : List String := ["H", "D", "C", "S"]

/-- The `createDeck` function (part_000 lines 8-16). -/
def createDeck : List Card :=
  (SUITS.map (fun suit =>
    RANKS.enum.map (fun p => { rank := p.2, suit := suit, value := p.1 + 2 }))).flatten

/-- The loop of `shuffle` (part_000 lines 19-22). -/
def shuffleFrom (js : Nat → Nat) : Nat → List α → List α
  | 0, l => l
  | i + 1, l => shuffleFrom js i (listSwap l (i + 1) (js (i + 1)))

/-- The `shuffle` function (part_000 lines 18-23). -/
def shuffle (js : Nat → Nat) (l : List α) : List α :=
  shuffleFrom js (l.length - 1) l

/-- The `getRankValue` function (part_000 lines 25-28). -/
def getRankValue (rank : String) : Nat :=
  if rank = "2" then 2
  else if rank = "3" then 3
  else if rank = "4" then 4
  else if rank = "5" then 5
  else if rank = "6" then 6
  else if rank = "7" then 7
  else if rank = "8" then 8
  else if rank = "9" then 9
  else if rank = "10" then 10
  else if rank = "J" then 11
  else if rank = "Q" then 12
  else if rank = "K" then 13
  else if rank = "A" then 14
  else 0

/-- The `evaluateHand` function (part_000 lines 30-59). -/
def evaluateHand (hand : List Card) : HandResult :=
  let sortedValues := sortDesc (hand.map (fun c => getRankValue c.rank))
  let ranks := hand.map (fun c => c.rank)
  let pairs := (rankEntries ranks).filter (fun e => 2 ≤ e.2)
  match pairs with
  | [] =>
    { type := "High Card", rank := 1, primaryValue := none,
      kicker := some (sortedValues.map some) }
  | (pairRank, cnt) :: _ =>
    let pairValue := getRankValue pairRank
    if cnt = 3 then
      { type := "Three of a Kind", rank := 3, primaryValue := some pairValue,
        kicker := none }
    else
      { type := "Pair", rank := 2, primaryValue := some pairValue,
        kicker := some [sortedValues.find? (fun v => v != pairValue)] }

/-- The kicker loop of `compareHands` (part_000 lines 74-79). -/
def cmpKickers : List (Option Nat) → List (Option Nat) → Nat
  | [], _ => 0
  | a :: as, bs =>
    if jsGt a (bs.headD none) then 1
    else if jsGt (bs.headD none) a then 2
    else cmpKickers as bs.tail

/-- The kicker step of `compareHands` (part_000 lines 73-80). -/
def cmpPhase3 (hand1 hand2 : HandResult) : Nat :=
  match hand1.kicker, hand2.kicker with
  | some k1, some k2 => cmpKickers k1 k2
  | _, _ => 0

/-- The primary-value step of `compareHands` (part_000 lines 66-71). -/
def cmpPhase2 (hand1 hand2 : HandResult) : Nat :=
  match hand1.primaryValue, hand2.primaryValue with
  | some p1, some p2 =>
    if p2 < p1 then 1
    else if p1 < p2 then 2
    else cmpPhase3 hand1 hand2
  | _, _ => cmpPhase3 hand1 hand2

/-- The `compareHands` function (part_000 lines 61-84). -/
def compareHands (hand1 hand2 : HandResult) : Nat :=
  if hand2.rank < hand1.rank then 1
  else if hand1.rank < hand2.rank then 2
  else if hand1.rank = hand2.rank then cmpPhase2 hand1 hand2
  else 0

end Part000

theorem part000_shuffleFrom_agree (js : Nat → Nat) (i : Nat) (l : List Card) :
    Part000.shuffleFrom js i l = shuffleFrom js i l := by
  induction i generalizing l with
  | zero => rfl
  | succ i ih => simp only [Part000.shuffleFrom, shuffleFrom, ih]

theorem part000_cmpKickers_agree (k1 k2 : List (Option Nat)) :
    Part000.cmpKickers k1 k2 = cmpKickers k1 k2 := by
  induction k1 generalizing k2 with
  | nil => rfl
  | cons a as ih => simp only [Part000.cmpKickers, cmpKickers, ih]

/-- C10: the game-logic functions of the two source variants are
extensionally equal — `createDeck`, `shuffle` (against the same random
indices), `getRankValue`, `evaluateHand` and `compareHands` of
`src/unnamed/part_000` agree with their `src/src/App.jsx` counterparts on
every input. -/
theorem variants_agree :
    Part000.createDeck = createDeck ∧
    (∀ (js : Nat → Nat) (l : List Card),
      Part000.shuffle js l = shuffle js l) ∧
    (∀ r : String, Part000.getRankValue r = getRankValue r) ∧
    (∀ hand : List Card, Part000.evaluateHand hand = evaluateHand hand) ∧
    (∀ a b : HandResult, Part000.compareHands a b = compareHands a b) := by
  refine ⟨rfl, ?_, fun r => rfl, fun hand => rfl, ?_⟩
  · intro js l
    exact part000_shuffleFrom_agree js (l.length - 1) l
  · intro a b
    obtain ⟨ta, ra, pa, ka⟩ := a
    obtain ⟨tb, rb, pb, kb⟩ := b
    cases pa <;> cases pb <;> cases ka <;> cases kb <;>
      simp [Part000.compareHands, compareHands, Part000.cmpPhase2, cmpPhase2,
        Part000.cmpPhase3, cmpPhase3, part000_cmpKickers_agree]
